import Mathlib

/-!
Shallow embedding of three langflow adapter components:
`CassandraVectorStoreComponent` (vectorstores/Cassandra.py),
`ElasticsearchVectorStoreComponent` (vectorstores/Elasticsearch.py), and
`InfinityEmbeddingsComponent` (embeddings/InfinityEmbeddings.py).

External library calls (cassio.init, the Cassandra / ElasticVectorSearch
constructors, similarity_search, and the InfinityEmbeddings constructor) are
modelled as call descriptors or oracle parameters, so that the theorems speak
about which call the adapter makes and with which arguments, and about how
results and exceptions of those calls are handled.
-/

namespace Langflow

/-- A dynamically typed Python attribute value, as far as the adapters'
search-query guards inspect it: `None`, a string, or any other object
(of which only the truthiness matters to the guard). -/
inductive PyValue where
  | none
  | str (s : String)
  | other (truthy : Bool)
deriving DecidableEq

/-- Python truthiness of a `PyValue` (a string is truthy iff non-empty). -/
def PyValue.truthy : PyValue → Bool
  | .none => false
  | .str s => !(s == "")
  | .other t => t

/-- `isinstance(v, str)`. -/
def PyValue.isStr : PyValue → Bool
  | .str _ => true
  | _ => false

/-- The string content of a `PyValue` (only meaningful when `isStr`). -/
def PyValue.asStr : PyValue → String
  | .str s => s
  | _ => ""

/-- A LangChain `Document` (text content plus metadata). -/
structure Document where
  page_content : String
  metadata : List (String × String)
deriving DecidableEq

/-- The platform's common record envelope, `langflow.schema.Data`. Its
internals are opaque to the adapters; we model it as a bag of fields. -/
structure Data where
  fields : List (String × String)
deriving DecidableEq

/-- An element of a vector-store ingest-input list: either a `Data` record
(which the builders convert via `to_lc_document`) or anything else
(passed through unchanged; the adapters assume it is a `Document`). -/
inductive VSInput where
  | data (d : Data)
  | doc (d : Document)
deriving DecidableEq

/-- A Python exception as far as the adapters discriminate: a `KeyError`
with its string representation, a `ValueError` with its message, or any
other exception (tag plus message). -/
inductive PyExc where
  | keyError (msg : String)
  | valueError (msg : String)
  | otherExc (tag : String) (msg : String)
deriving DecidableEq

/-- Does `needle` occur as a contiguous run inside `hay`? -/
def charListHasInfix (needle : List Char) : List Char → Bool
  | [] => needle.isEmpty
  | c :: rest => needle.isPrefixOf (c :: rest) || charListHasInfix needle rest

/-- Python's `needle in hay` substring test on strings. -/
def strContains (hay needle : String) : Bool :=
  charListHasInfix needle.data hay.data

/-- The body of the loop shared by both builders: a `Data` input is
converted with `to_lc_document`, any other input is passed through. -/
def convert_input (to_lc_document : Data → Document) : VSInput → Document
  | .data d => to_lc_document d
  | .doc d => d

/-- The document-collection loop shared by both builders
(`for _input in inputs or []: ...`): an absent (`None`) list is treated
as empty, and each element is converted by `convert_input` in order. -/
def convert_inputs (to_lc_document : Data → Document)
    (inputs : Option (List VSInput)) : List Document :=
  (inputs.getD []).map (convert_input to_lc_document)

/-- A character Python's `str.strip()` removes by default. -/
def pyIsSpace (c : Char) : Bool :=
  c == ' ' || c == '\t' || c == '\n' || c == '\r' || c == '\x0b' || c == '\x0c'

/-- Python's `s.strip()`: drop leading and trailing whitespace. -/
def py_strip (s : String) : String :=
  String.mk (((s.data.dropWhile pyIsSpace).reverse.dropWhile pyIsSpace).reverse)

/-- The guard `q and isinstance(q, str) and q.strip()` used by both
`search_documents` methods on their query attribute. -/
def query_accepted (v : PyValue) : Bool :=
  v.truthy && v.isStr && (py_strip v.asStr != "")

/-- Descriptor of the `cassio.init(database_id=..., token=...)` call. -/
structure CassioInitCall where
  database_id : String
  token : String
deriving DecidableEq

/-- Descriptor of the external constructor call that produced the Cassandra
store handle: either the bulk-load `Cassandra.from_documents(...)` or the
plain `Cassandra(...)` constructor. `Emb` is the opaque embeddings handle
forwarded verbatim. -/
inductive CassandraStore (Emb : Type) where
  | from_documents (documents : List Document) (embedding : Emb)
      (table_name : String) (keyspace : String) (ttl_seconds : Int)
      (batch_size : Int) (body_index_options : String)
  | construct (embedding : Emb) (table_name : String) (keyspace : String)
      (ttl_seconds : Int) (body_index_options : String) (setup_mode : String)
deriving DecidableEq

/-- Everything `_build_cassandra` does: the `cassio.init` call followed by
one store-constructor call. -/
structure CassandraBuild (Emb : Type) where
  cassio_init : CassioInitCall
  table : CassandraStore Emb
deriving DecidableEq

/-- The resolved input fields of `CassandraVectorStoreComponent`. -/
structure CassandraVectorStoreComponent (Emb : Type) where
  token : String
  database_id : String
  table_name : String
  keyspace : String
  ttl_seconds : Int
  batch_size : Int
  body_index_options : String
  setup_mode : String
  embedding : Emb
  vector_store_inputs : Option (List VSInput)
  add_to_vector_store : Bool
  search_input : PyValue
  number_of_results : Int
deriving DecidableEq

/-- `CassandraVectorStoreComponent._build_cassandra`: run `cassio.init`,
then, if `add_to_vector_store` and the converted document list is
non-empty, bulk-load via `Cassandra.from_documents`; otherwise call the
plain `Cassandra(...)` constructor with the `setup_mode` flag. -/
def CassandraVectorStoreComponent.build_cassandra {Emb : Type}
    (self : CassandraVectorStoreComponent Emb)
    (to_lc_document : Data → Document) : CassandraBuild Emb :=
  let init_call : CassioInitCall :=
    { database_id := self.database_id, token := self.token }
  let table : CassandraStore Emb :=
    if self.add_to_vector_store then
      let documents := convert_inputs to_lc_document self.vector_store_inputs
      if documents.isEmpty then
        CassandraStore.construct self.embedding self.table_name self.keyspace
          self.ttl_seconds self.body_index_options self.setup_mode
      else
        CassandraStore.from_documents documents self.embedding self.table_name
          self.keyspace self.ttl_seconds self.batch_size self.body_index_options
    else
      CassandraStore.construct self.embedding self.table_name self.keyspace
        self.ttl_seconds self.body_index_options self.setup_mode
  { cassio_init := init_call, table := table }

/-- `build_vector_store`: delegates to the builder. -/
def CassandraVectorStoreComponent.build_vector_store {Emb : Type}
    (self : CassandraVectorStoreComponent Emb)
    (to_lc_document : Data → Document) : CassandraBuild Emb :=
  self.build_cassandra to_lc_document

/-- `build_base_retriever`: delegates to the builder. -/
def CassandraVectorStoreComponent.build_base_retriever {Emb : Type}
    (self : CassandraVectorStoreComponent Emb)
    (to_lc_document : Data → Document) : CassandraBuild Emb :=
  self.build_cassandra to_lc_document

/-- Modelled from the spec: the record conversion helper
`langflow.helpers.data.docs_to_data`, whose definition is outside this
excerpt. Per the spec it "converts a list of third-party documents into
the platform's common record list", i.e. it converts the hits one by one;
the per-document conversion `doc_to_data` stays an oracle. -/
def docs_to_data (doc_to_data : Document → Data) (docs : List Document) :
    List Data :=
  docs.map doc_to_data

/-- Trace of one `search_documents` invocation: the builder run it
performed, the `similarity_search(query, k)` calls it issued, its outcome
(the returned record list or the exception it raised), and the value
assigned to `self.status` (when any). -/
structure SearchRun (Store : Type) where
  build : Store
  similarity_search_calls : List (String × Int)
  outcome : Except PyExc (List Data)
  status : Option (List Data)

/-- The guidance message of the `ValueError` raised by the Cassandra
search path when the underlying `KeyError` mentions "content". -/
def cassandra_ingest_message : String :=
  "You should ingest data through Langflow (or LangChain) to query it in Langflow. Your collection does not contain a field name \x27content\x27."

/-- `CassandraVectorStoreComponent.search_documents`: always build the
store first; if the query guard passes, call `similarity_search`,
translating a `KeyError` mentioning "content" into the guidance
`ValueError`, re-raising any other exception unchanged, and on success
return `docs_to_data` of the hits (also assigned to `status`); otherwise
return the empty list. `similarity_search` is the oracle for the
underlying store's search call. -/
def CassandraVectorStoreComponent.search_documents {Emb : Type}
    (self : CassandraVectorStoreComponent Emb)
    (to_lc_document : Data → Document)
    (similarity_search : CassandraBuild Emb → String → Int → Except PyExc (List Document))
    (doc_to_data : Document → Data) : SearchRun (CassandraBuild Emb) :=
  let vector_store := self.build_cassandra to_lc_document
  if query_accepted self.search_input then
    let calls := [(self.search_input.asStr, self.number_of_results)]
    match similarity_search vector_store self.search_input.asStr self.number_of_results with
    | Except.error (PyExc.keyError msg) =>
      if strContains msg "content" then
        { build := vector_store, similarity_search_calls := calls,
          outcome := Except.error (PyExc.valueError cassandra_ingest_message),
          status := Option.none }
      else
        { build := vector_store, similarity_search_calls := calls,
          outcome := Except.error (PyExc.keyError msg), status := Option.none }
    | Except.error e =>
      { build := vector_store, similarity_search_calls := calls,
        outcome := Except.error e, status := Option.none }
    | Except.ok docs =>
      let data := docs_to_data doc_to_data docs
      { build := vector_store, similarity_search_calls := calls,
        outcome := Except.ok data, status := some data }
  else
    { build := vector_store, similarity_search_calls := [],
      outcome := Except.ok [], status := Option.none }

/-- Descriptor of the external constructor call that produced the
Elasticsearch store handle: `ElasticVectorSearch.from_documents(...)` or
the plain `ElasticVectorSearch(...)` constructor. -/
inductive ElasticVectorSearch (Emb : Type) where
  | from_documents (elasticsearch_url : String) (http_auth : String × String)
      (verify_certs : Bool) (documents : List Document) (embedding : Emb)
      (index_name : String)
  | construct (elasticsearch_url : String) (http_auth : String × String)
      (verify_certs : Bool) (embedding : Emb) (index_name : String)
deriving DecidableEq

/-- The `verify_certs` argument of the constructor call. -/
def ElasticVectorSearch.verify_certs_of {Emb : Type} :
    ElasticVectorSearch Emb → Bool
  | .from_documents _ _ v _ _ _ => v
  | .construct _ _ v _ _ => v

/-- The `elasticsearch_url` argument of the constructor call. -/
def ElasticVectorSearch.url_of {Emb : Type} : ElasticVectorSearch Emb → String
  | .from_documents u _ _ _ _ _ => u
  | .construct u _ _ _ _ => u

/-- The `http_auth` argument of the constructor call. -/
def ElasticVectorSearch.http_auth_of {Emb : Type} :
    ElasticVectorSearch Emb → String × String
  | .from_documents _ a _ _ _ _ => a
  | .construct _ a _ _ _ => a

/-- The `embedding` argument of the constructor call. -/
def ElasticVectorSearch.embedding_of {Emb : Type} : ElasticVectorSearch Emb → Emb
  | .from_documents _ _ _ _ e _ => e
  | .construct _ _ _ e _ => e

/-- The `index_name` argument of the constructor call. -/
def ElasticVectorSearch.index_name_of {Emb : Type} :
    ElasticVectorSearch Emb → String
  | .from_documents _ _ _ _ _ i => i
  | .construct _ _ _ _ i => i

/-- The resolved input fields of `ElasticsearchVectorStoreComponent`. -/
structure ElasticsearchVectorStoreComponent (Emb : Type) where
  elasticsearch_url : String
  elasticsearch_username : String
  elasticsearch_password : String
  index_name : String
  search_query : PyValue
  ingest_data : Option (List VSInput)
  embedding : Emb
  number_of_results : Int
deriving DecidableEq

/-- `ElasticsearchVectorStoreComponent._build_elasticsearch`: convert the
ingest inputs; if any documents result, bulk-load via `from_documents`,
otherwise call the plain constructor — on either path with
`verify_certs=False` and the url, auth pair, embedding and index name
forwarded verbatim. -/
def ElasticsearchVectorStoreComponent.build_elasticsearch {Emb : Type}
    (self : ElasticsearchVectorStoreComponent Emb)
    (to_lc_document : Data → Document) : ElasticVectorSearch Emb :=
  let documents := convert_inputs to_lc_document self.ingest_data
  if documents.isEmpty then
    ElasticVectorSearch.construct self.elasticsearch_url
      (self.elasticsearch_username, self.elasticsearch_password) false
      self.embedding self.index_name
  else
    ElasticVectorSearch.from_documents self.elasticsearch_url
      (self.elasticsearch_username, self.elasticsearch_password) false
      documents self.embedding self.index_name

/-- `build_vector_store` of the Elasticsearch component: delegates to the
builder. -/
def ElasticsearchVectorStoreComponent.build_vector_store {Emb : Type}
    (self : ElasticsearchVectorStoreComponent Emb)
    (to_lc_document : Data → Document) : ElasticVectorSearch Emb :=
  self.build_elasticsearch to_lc_document

/-- `ElasticsearchVectorStoreComponent.search_documents`: always build the
store first; if the query guard passes, call `similarity_search` (any
exception propagates unchanged) and return `docs_to_data` of the hits
(also assigned to `status`); otherwise return the empty list. -/
def ElasticsearchVectorStoreComponent.search_documents {Emb : Type}
    (self : ElasticsearchVectorStoreComponent Emb)
    (to_lc_document : Data → Document)
    (similarity_search : ElasticVectorSearch Emb → String → Int → Except PyExc (List Document))
    (doc_to_data : Document → Data) : SearchRun (ElasticVectorSearch Emb) :=
  let vector_store := self.build_elasticsearch to_lc_document
  if query_accepted self.search_query then
    match similarity_search vector_store self.search_query.asStr self.number_of_results with
    | Except.error e =>
      { build := vector_store,
        similarity_search_calls := [(self.search_query.asStr, self.number_of_results)],
        outcome := Except.error e, status := Option.none }
    | Except.ok docs =>
      let data := docs_to_data doc_to_data docs
      { build := vector_store,
        similarity_search_calls := [(self.search_query.asStr, self.number_of_results)],
        outcome := Except.ok data, status := some data }
  else
    { build := vector_store, similarity_search_calls := [],
      outcome := Except.ok [], status := Option.none }

/-- The resolved input fields of `InfinityEmbeddingsComponent`. -/
structure InfinityEmbeddingsComponent where
  model : String
  base_url : String
deriving DecidableEq

/-- The `ValueError` raised by `build_embeddings`, with the chained cause
(`raise ... from e`). -/
structure RaisedValueError where
  msg : String
  cause : Option PyExc
deriving DecidableEq

/-- `InfinityEmbeddingsComponent.build_embeddings`: construct the
underlying `InfinityEmbeddings(model=..., infinity_api_url=...)` client
(the oracle `constructor`); on any exception raise
`ValueError("Could not connect to Infinity API.")` chained from it; on
success return the client unchanged. -/
def InfinityEmbeddingsComponent.build_embeddings {Client : Type}
    (self : InfinityEmbeddingsComponent)
    (constructor : String → String → Except PyExc Client) :
    Except RaisedValueError Client :=
  match constructor self.model self.base_url with
  | Except.ok output => Except.ok output
  | Except.error e =>
    Except.error { msg := "Could not connect to Infinity API.", cause := some e }

/-! Concrete sample values used to exercise the definitions. -/

/-- A sample per-record conversion `Data.to_lc_document` oracle. -/
def sample_to_lc : Data → Document :=
  fun d => { page_content := "converted", metadata := d.fields }

/-- A sample LangChain document. -/
def sample_doc : Document := { page_content := "hello", metadata := [] }

/-- A sample platform record. -/
def sample_data_rec : Data := { fields := [("text", "hi")] }

/-- A sample hit list returned by a similarity search. -/
def sample_hits : List Document :=
  [sample_doc, { page_content := "world", metadata := [] }]

/-- A sample per-document record conversion oracle. -/
def sample_doc_to_data : Document → Data :=
  fun d => { fields := ("text", d.page_content) :: d.metadata }

/-- A sample resolved Cassandra component (embedding handle `7 : Nat`). -/
def sample_cassandra : CassandraVectorStoreComponent Nat :=
  { token := "tok", database_id := "db", table_name := "tbl", keyspace := "ks",
    ttl_seconds := 0, batch_size := 16, body_index_options := "",
    setup_mode := "Sync", embedding := 7,
    vector_store_inputs := some [VSInput.data sample_data_rec, VSInput.doc sample_doc],
    add_to_vector_store := true, search_input := PyValue.str "query",
    number_of_results := 4 }

/-- The sample Cassandra component with no ingest inputs. -/
def sample_cassandra_no_inputs : CassandraVectorStoreComponent Nat :=
  { sample_cassandra with vector_store_inputs := Option.none }

/-- A sample resolved Elasticsearch component. -/
def sample_elasticsearch : ElasticsearchVectorStoreComponent Nat :=
  { elasticsearch_url := "http://localhost:9200", elasticsearch_username := "u",
    elasticsearch_password := "p", index_name := "idx",
    search_query := PyValue.str "query",
    ingest_data := some [VSInput.doc sample_doc], embedding := 7,
    number_of_results := 4 }

/-- A sample Cassandra similarity-search oracle that succeeds. -/
def sample_sim_cass : CassandraBuild Nat → String → Int → Except PyExc (List Document) :=
  fun _ _ _ => Except.ok sample_hits

/-- A sample Elasticsearch similarity-search oracle that succeeds. -/
def sample_sim_es : ElasticVectorSearch Nat → String → Int → Except PyExc (List Document) :=
  fun _ _ _ => Except.ok sample_hits

/-- A sample resolved Infinity embeddings component. -/
def sample_infinity : InfinityEmbeddingsComponent :=
  { model := "lier007/xiaobu-embedding-v2",
    base_url := "http://infinity.192.168.107.2.nip.io/" }

/-- A query attribute that fails the search guard has `query_accepted` false:
it is falsy, or not a string, or strips to the empty string. -/
theorem query_accepted_eq_false_of (v : PyValue)
    (h : v.truthy = false ∨ v.isStr = false ∨ py_strip v.asStr = "") :
    query_accepted v = false := by
  unfold query_accepted
  rcases h with h | h | h <;> simp [h]

/-- C1: in `_build_cassandra`, if `add_to_vector_store` is true and the
converted document list is non-empty, the store is constructed via
`Cassandra.from_documents` with the given embedding, table_name, keyspace,
ttl_seconds, batch_size and body_index_options; otherwise via the plain
`Cassandra(...)` constructor with the setup_mode flag. -/
theorem C1_cassandra_builder_paths {Emb : Type}
    (self : CassandraVectorStoreComponent Emb) (to_lc_document : Data → Document) :
    (self.add_to_vector_store = true →
      convert_inputs to_lc_document self.vector_store_inputs ≠ [] →
      (self.build_cassandra to_lc_document).table =
        CassandraStore.from_documents
          (convert_inputs to_lc_document self.vector_store_inputs)
          self.embedding self.table_name self.keyspace self.ttl_seconds
          self.batch_size self.body_index_options) ∧
    ((self.add_to_vector_store = false ∨
        convert_inputs to_lc_document self.vector_store_inputs = []) →
      (self.build_cassandra to_lc_document).table =
        CassandraStore.construct self.embedding self.table_name self.keyspace
          self.ttl_seconds self.body_index_options self.setup_mode) := by
  constructor
  · intro hadd hne
    simp only [CassandraVectorStoreComponent.build_cassandra, hadd, if_true]
    rw [if_neg]
    simp [List.isEmpty_iff, hne]
  · rintro (h | h)
    · simp [CassandraVectorStoreComponent.build_cassandra, h]
    · by_cases hadd : self.add_to_vector_store <;>
        simp [CassandraVectorStoreComponent.build_cassandra, hadd, h]

/-- Witness for C1: on `sample_cassandra` (flag set, two inputs) the bulk
path is taken; with the flag cleared the plain constructor is used. -/
theorem C1_witness :
    (sample_cassandra.build_cassandra sample_to_lc).table =
      CassandraStore.from_documents
        (convert_inputs sample_to_lc sample_cassandra.vector_store_inputs)
        sample_cassandra.embedding sample_cassandra.table_name
        sample_cassandra.keyspace sample_cassandra.ttl_seconds
        sample_cassandra.batch_size sample_cassandra.body_index_options ∧
    (({ sample_cassandra with add_to_vector_store := false } :
        CassandraVectorStoreComponent Nat).build_cassandra sample_to_lc).table =
      CassandraStore.construct sample_cassandra.embedding
        sample_cassandra.table_name sample_cassandra.keyspace
        sample_cassandra.ttl_seconds sample_cassandra.body_index_options
        sample_cassandra.setup_mode :=
  ⟨(C1_cassandra_builder_paths sample_cassandra sample_to_lc).1 rfl (by decide),
   (C1_cassandra_builder_paths
      ({ sample_cassandra with add_to_vector_store := false }) sample_to_lc).2
      (Or.inl rfl)⟩

/-- C2: in `search_documents` with an accepted query, a `KeyError` from
`similarity_search` whose string representation contains "content" is
replaced by the guidance `ValueError`; every other exception (including
`KeyError`s not mentioning "content") propagates unchanged. -/
theorem C2_cassandra_search_error_translation {Emb : Type}
    (self : CassandraVectorStoreComponent Emb) (to_lc_document : Data → Document)
    (similarity_search : CassandraBuild Emb → String → Int → Except PyExc (List Document))
    (doc_to_data : Document → Data) (e : PyExc)
    (hq : query_accepted self.search_input = true)
    (he : similarity_search (self.build_cassandra to_lc_document)
        self.search_input.asStr self.number_of_results = Except.error e) :
    ((∃ msg, e = PyExc.keyError msg ∧ strContains msg "content" = true) →
      (self.search_documents to_lc_document similarity_search doc_to_data).outcome =
        Except.error (PyExc.valueError cassandra_ingest_message)) ∧
    ((∀ msg, e = PyExc.keyError msg → strContains msg "content" = false) →
      (self.search_documents to_lc_document similarity_search doc_to_data).outcome =
        Except.error e) := by
  constructor
  · rintro ⟨msg, rfl, hc⟩
    simp [CassandraVectorStoreComponent.search_documents, hq, he, hc]
  · intro hother
    cases e with
    | keyError msg =>
      simp [CassandraVectorStoreComponent.search_documents, hq, he, hother msg rfl]
    | valueError msg =>
      simp [CassandraVectorStoreComponent.search_documents, hq, he]
    | otherExc tag msg =>
      simp [CassandraVectorStoreComponent.search_documents, hq, he]

/-- Witness for C2: a `KeyError` printing as `'content'` becomes the
guidance `ValueError` on `sample_cassandra`. -/
theorem C2_witness :
    (sample_cassandra.search_documents sample_to_lc
        (fun _ _ _ => Except.error (PyExc.keyError "\x27content\x27"))
        sample_doc_to_data).outcome =
      Except.error (PyExc.valueError cassandra_ingest_message) :=
  (C2_cassandra_search_error_translation sample_cassandra sample_to_lc
      (fun _ _ _ => Except.error (PyExc.keyError "\x27content\x27"))
      sample_doc_to_data (PyExc.keyError "\x27content\x27") (by decide) rfl).1
    ⟨"\x27content\x27", rfl, by decide⟩

/-- C3: `build_embeddings` turns every constructor exception into the one
`ValueError "Could not connect to Infinity API."` with the original
exception as its cause, and returns a successfully constructed client
unchanged. -/
theorem C3_infinity_build_embeddings {Client : Type}
    (self : InfinityEmbeddingsComponent)
    (constructor : String → String → Except PyExc Client) :
    (∀ e, constructor self.model self.base_url = Except.error e →
      self.build_embeddings constructor =
        Except.error { msg := "Could not connect to Infinity API.",
                       cause := some e }) ∧
    (∀ c, constructor self.model self.base_url = Except.ok c →
      self.build_embeddings constructor = Except.ok c) := by
  constructor
  · intro e he
    simp [InfinityEmbeddingsComponent.build_embeddings, he]
  · intro c hc
    simp [InfinityEmbeddingsComponent.build_embeddings, hc]

/-- Witness for C3: a failing constructor yields the single `ValueError`
with the original exception as cause; a succeeding one returns the client. -/
theorem C3_witness :
    sample_infinity.build_embeddings
        (fun _ _ => (Except.error (PyExc.otherExc "ConnectionError" "refused") :
          Except PyExc Nat)) =
      Except.error { msg := "Could not connect to Infinity API.",
                     cause := some (PyExc.otherExc "ConnectionError" "refused") } ∧
    sample_infinity.build_embeddings (fun _ _ => (Except.ok 3 : Except PyExc Nat)) =
      Except.ok 3 :=
  ⟨(C3_infinity_build_embeddings sample_infinity
      (fun _ _ => Except.error (PyExc.otherExc "ConnectionError" "refused"))).1
      (PyExc.otherExc "ConnectionError" "refused") rfl,
   (C3_infinity_build_embeddings sample_infinity (fun _ _ => Except.ok 3)).2 3 rfl⟩

/-- C4: for both adapters, when the search query is absent (`None`), empty,
not a string, or whitespace-only, `search_documents` returns the empty
list and issues no `similarity_search` call. -/
theorem C4_blank_query_empty_result {Emb : Type}
    (cass : CassandraVectorStoreComponent Emb)
    (es : ElasticsearchVectorStoreComponent Emb)
    (to_lc_document : Data → Document)
    (sim_c : CassandraBuild Emb → String → Int → Except PyExc (List Document))
    (sim_e : ElasticVectorSearch Emb → String → Int → Except PyExc (List Document))
    (doc_to_data : Document → Data)
    (hc : cass.search_input.truthy = false ∨ cass.search_input.isStr = false ∨
        py_strip cass.search_input.asStr = "")
    (he : es.search_query.truthy = false ∨ es.search_query.isStr = false ∨
        py_strip es.search_query.asStr = "") :
    ((cass.search_documents to_lc_document sim_c doc_to_data).outcome =
        Except.ok [] ∧
     (cass.search_documents to_lc_document sim_c doc_to_data).similarity_search_calls =
        []) ∧
    ((es.search_documents to_lc_document sim_e doc_to_data).outcome =
        Except.ok [] ∧
     (es.search_documents to_lc_document sim_e doc_to_data).similarity_search_calls =
        []) := by
  have hqc := query_accepted_eq_false_of cass.search_input hc
  have hqe := query_accepted_eq_false_of es.search_query he
  refine ⟨⟨?_, ?_⟩, ?_, ?_⟩ <;>
    simp [CassandraVectorStoreComponent.search_documents,
      ElasticsearchVectorStoreComponent.search_documents, hqc, hqe]

/-- Witness for C4: a whitespace-only Cassandra query and an absent
Elasticsearch query both give an empty result and no search call. -/
theorem C4_witness :
    ((({ sample_cassandra with search_input := PyValue.str " \t " } :
          CassandraVectorStoreComponent Nat).search_documents sample_to_lc
          sample_sim_cass sample_doc_to_data).outcome = Except.ok [] ∧
     (({ sample_cassandra with search_input := PyValue.str " \t " } :
          CassandraVectorStoreComponent Nat).search_documents sample_to_lc
          sample_sim_cass sample_doc_to_data).similarity_search_calls = []) ∧
    ((({ sample_elasticsearch with search_query := PyValue.none } :
          ElasticsearchVectorStoreComponent Nat).search_documents sample_to_lc
          sample_sim_es sample_doc_to_data).outcome = Except.ok [] ∧
     (({ sample_elasticsearch with search_query := PyValue.none } :
          ElasticsearchVectorStoreComponent Nat).search_documents sample_to_lc
          sample_sim_es sample_doc_to_data).similarity_search_calls = []) :=
  C4_blank_query_empty_result
    ({ sample_cassandra with search_input := PyValue.str " \t " })
    ({ sample_elasticsearch with search_query := PyValue.none })
    sample_to_lc sample_sim_cass sample_sim_es sample_doc_to_data
    (Or.inr (Or.inr (by decide))) (Or.inl (by decide))

/-- C5: for both adapters, an accepted (non-blank) query leads to exactly
one `similarity_search` call with that query and `k = number_of_results`,
and the returned record list is `docs_to_data` applied to the hits, whose
length equals the number of hits. -/
theorem C5_nonblank_query_search {Emb : Type}
    (cass : CassandraVectorStoreComponent Emb)
    (es : ElasticsearchVectorStoreComponent Emb)
    (to_lc_document : Data → Document)
    (sim_c : CassandraBuild Emb → String → Int → Except PyExc (List Document))
    (sim_e : ElasticVectorSearch Emb → String → Int → Except PyExc (List Document))
    (doc_to_data : Document → Data) (docs_c docs_e : List Document)
    (hqc : query_accepted cass.search_input = true)
    (hqe : query_accepted es.search_query = true)
    (hsc : sim_c (cass.build_cassandra to_lc_document) cass.search_input.asStr
        cass.number_of_results = Except.ok docs_c)
    (hse : sim_e (es.build_elasticsearch to_lc_document) es.search_query.asStr
        es.number_of_results = Except.ok docs_e) :
    ((cass.search_documents to_lc_document sim_c doc_to_data).similarity_search_calls =
        [(cass.search_input.asStr, cass.number_of_results)] ∧
     (cass.search_documents to_lc_document sim_c doc_to_data).outcome =
        Except.ok (docs_to_data doc_to_data docs_c) ∧
     (docs_to_data doc_to_data docs_c).length = docs_c.length) ∧
    ((es.search_documents to_lc_document sim_e doc_to_data).similarity_search_calls =
        [(es.search_query.asStr, es.number_of_results)] ∧
     (es.search_documents to_lc_document sim_e doc_to_data).outcome =
        Except.ok (docs_to_data doc_to_data docs_e) ∧
     (docs_to_data doc_to_data docs_e).length = docs_e.length) := by
  refine ⟨⟨?_, ?_, ?_⟩, ?_, ?_, ?_⟩ <;>
    simp [CassandraVectorStoreComponent.search_documents,
      ElasticsearchVectorStoreComponent.search_documents, docs_to_data,
      hqc, hqe, hsc, hse]

/-- Witness for C5: on the sample components with query "query" and a
two-hit oracle, one search call `("query", 4)` is made and two records
come back. -/
theorem C5_witness :
    ((sample_cassandra.search_documents sample_to_lc sample_sim_cass
        sample_doc_to_data).similarity_search_calls = [("query", 4)] ∧
     (sample_cassandra.search_documents sample_to_lc sample_sim_cass
        sample_doc_to_data).outcome =
        Except.ok (docs_to_data sample_doc_to_data sample_hits) ∧
     (docs_to_data sample_doc_to_data sample_hits).length = sample_hits.length) ∧
    ((sample_elasticsearch.search_documents sample_to_lc sample_sim_es
        sample_doc_to_data).similarity_search_calls = [("query", 4)] ∧
     (sample_elasticsearch.search_documents sample_to_lc sample_sim_es
        sample_doc_to_data).outcome =
        Except.ok (docs_to_data sample_doc_to_data sample_hits) ∧
     (docs_to_data sample_doc_to_data sample_hits).length = sample_hits.length) :=
  C5_nonblank_query_search sample_cassandra sample_elasticsearch sample_to_lc
    sample_sim_cass sample_sim_es sample_doc_to_data sample_hits sample_hits
    (by decide) (by decide) rfl rfl

/-- C6: `_build_elasticsearch` creates the client with
`verify_certs = false` on both paths, forwarding the cluster url, the
(username, password) auth pair, the embedding and the index name verbatim. -/
theorem C6_elasticsearch_verify_certs {Emb : Type}
    (self : ElasticsearchVectorStoreComponent Emb)
    (to_lc_document : Data → Document) :
    (self.build_elasticsearch to_lc_document).verify_certs_of = false ∧
    (self.build_elasticsearch to_lc_document).url_of = self.elasticsearch_url ∧
    (self.build_elasticsearch to_lc_document).http_auth_of =
      (self.elasticsearch_username, self.elasticsearch_password) ∧
    (self.build_elasticsearch to_lc_document).embedding_of = self.embedding ∧
    (self.build_elasticsearch to_lc_document).index_name_of = self.index_name := by
  unfold ElasticsearchVectorStoreComponent.build_elasticsearch
  cases h : (convert_inputs to_lc_document self.ingest_data).isEmpty <;>
    simp [h, ElasticVectorSearch.verify_certs_of, ElasticVectorSearch.url_of,
      ElasticVectorSearch.http_auth_of, ElasticVectorSearch.embedding_of,
      ElasticVectorSearch.index_name_of]

/-- C7: the Cassandra outputs `build_vector_store` and
`build_base_retriever` both equal the builder's result, hence each other;
and `search_documents` re-runs the same full construction (its build trace
equals the builder's result). -/
theorem C7_cassandra_outputs_same_builder {Emb : Type}
    (self : CassandraVectorStoreComponent Emb) (to_lc_document : Data → Document)
    (similarity_search : CassandraBuild Emb → String → Int → Except PyExc (List Document))
    (doc_to_data : Document → Data) :
    self.build_vector_store to_lc_document = self.build_cassandra to_lc_document ∧
    self.build_base_retriever to_lc_document = self.build_cassandra to_lc_document ∧
    self.build_vector_store to_lc_document = self.build_base_retriever to_lc_document ∧
    (self.search_documents to_lc_document similarity_search doc_to_data).build =
      self.build_cassandra to_lc_document := by
  refine ⟨rfl, rfl, rfl, ?_⟩
  unfold CassandraVectorStoreComponent.search_documents
  split
  · dsimp only
    split
    · split <;> rfl
    · rfl
    · rfl
  · rfl

/-- C8: when the converted document list is empty, `_build_cassandra`
performs the same plain constructor call whether `add_to_vector_store` is
true or false — the builder's result does not depend on the flag. -/
theorem C8_empty_documents_flag_irrelevant {Emb : Type}
    (self : CassandraVectorStoreComponent Emb) (to_lc_document : Data → Document)
    (h : convert_inputs to_lc_document self.vector_store_inputs = []) :
    ({ self with add_to_vector_store := true } :
        CassandraVectorStoreComponent Emb).build_cassandra to_lc_document =
      ({ self with add_to_vector_store := false } :
        CassandraVectorStoreComponent Emb).build_cassandra to_lc_document := by
  unfold CassandraVectorStoreComponent.build_cassandra
  simp [h]

/-- Witness for C8: with no ingest inputs, the sample component builds the
same store with the flag set or cleared. -/
theorem C8_witness :
    ({ sample_cassandra_no_inputs with add_to_vector_store := true } :
      CassandraVectorStoreComponent Nat).build_cassandra sample_to_lc =
    ({ sample_cassandra_no_inputs with add_to_vector_store := false } :
      CassandraVectorStoreComponent Nat).build_cassandra sample_to_lc :=
  C8_empty_documents_flag_irrelevant sample_cassandra_no_inputs sample_to_lc rfl

/-- C9: both `search_documents` methods run the full builder before
examining the query, so even a rejected (blank) query leaves the complete
construction trace — for Cassandra including the `cassio.init` call — while
returning the empty list. -/
theorem C9_blank_query_still_builds {Emb : Type}
    (cass : CassandraVectorStoreComponent Emb)
    (es : ElasticsearchVectorStoreComponent Emb)
    (to_lc_document : Data → Document)
    (sim_c : CassandraBuild Emb → String → Int → Except PyExc (List Document))
    (sim_e : ElasticVectorSearch Emb → String → Int → Except PyExc (List Document))
    (doc_to_data : Document → Data)
    (hc : query_accepted cass.search_input = false)
    (he : query_accepted es.search_query = false) :
    ((cass.search_documents to_lc_document sim_c doc_to_data).build =
        cass.build_cassandra to_lc_document ∧
     (cass.search_documents to_lc_document sim_c doc_to_data).build.cassio_init =
        { database_id := cass.database_id, token := cass.token } ∧
     (cass.search_documents to_lc_document sim_c doc_to_data).outcome =
        Except.ok []) ∧
    ((es.search_documents to_lc_document sim_e doc_to_data).build =
        es.build_elasticsearch to_lc_document ∧
     (es.search_documents to_lc_document sim_e doc_to_data).outcome =
        Except.ok []) := by
  refine ⟨⟨?_, ?_, ?_⟩, ?_, ?_⟩ <;>
    simp [CassandraVectorStoreComponent.search_documents,
      ElasticsearchVectorStoreComponent.search_documents,
      CassandraVectorStoreComponent.build_cassandra, hc, he]

/-- Witness for C9: blank queries on the sample components still produce
the full build trace (bulk ingestion descriptor and `cassio.init` call)
with an empty result. -/
theorem C9_witness :
    ((({ sample_cassandra with search_input := PyValue.str "" } :
          CassandraVectorStoreComponent Nat).search_documents sample_to_lc
          sample_sim_cass sample_doc_to_data).build =
        ({ sample_cassandra with search_input := PyValue.str "" } :
          CassandraVectorStoreComponent Nat).build_cassandra sample_to_lc ∧
     (({ sample_cassandra with search_input := PyValue.str "" } :
          CassandraVectorStoreComponent Nat).search_documents sample_to_lc
          sample_sim_cass sample_doc_to_data).build.cassio_init =
        { database_id := sample_cassandra.database_id,
          token := sample_cassandra.token } ∧
     (({ sample_cassandra with search_input := PyValue.str "" } :
          CassandraVectorStoreComponent Nat).search_documents sample_to_lc
          sample_sim_cass sample_doc_to_data).outcome = Except.ok []) ∧
    ((({ sample_elasticsearch with search_query := PyValue.str " " } :
          ElasticsearchVectorStoreComponent Nat).search_documents sample_to_lc
          sample_sim_es sample_doc_to_data).build =
        ({ sample_elasticsearch with search_query := PyValue.str " " } :
          ElasticsearchVectorStoreComponent Nat).build_elasticsearch sample_to_lc ∧
     (({ sample_elasticsearch with search_query := PyValue.str " " } :
          ElasticsearchVectorStoreComponent Nat).search_documents sample_to_lc
          sample_sim_es sample_doc_to_data).outcome = Except.ok []) :=
  C9_blank_query_still_builds
    ({ sample_cassandra with search_input := PyValue.str "" })
    ({ sample_elasticsearch with search_query := PyValue.str " " })
    sample_to_lc sample_sim_cass sample_sim_es sample_doc_to_data
    (by decide) (by decide)

/-- C10: the ingest-input conversion shared by both builders
(`convert_inputs`) treats an absent list as empty, preserves order and
length, converts every `Data` element with `to_lc_document`, and passes
every other element through unchanged. -/
theorem C10_convert_inputs_elementwise (to_lc_document : Data → Document)
    (inputs : List VSInput) :
    convert_inputs to_lc_document Option.none = [] ∧
    (convert_inputs to_lc_document (some inputs)).length = inputs.length ∧
    (∀ i : Nat, (convert_inputs to_lc_document (some inputs))[i]? =
      (inputs[i]?).map (convert_input to_lc_document)) ∧
    (∀ d : Data, convert_input to_lc_document (VSInput.data d) =
      to_lc_document d) ∧
    (∀ dc : Document, convert_input to_lc_document (VSInput.doc dc) = dc) := by
  refine ⟨rfl, by simp [convert_inputs], ?_, fun d => rfl, fun dc => rfl⟩
  intro i
  simp [convert_inputs]

end Langflow
